import Mathlib

/-!
Shallow embedding of `src/osquery/core/windows/wmi.cpp` (namespace `osquery`),
the typed access layer over WMI: the `WmiResultItem` typed getters, the
`WmiMethodArgs` collection, and the `WmiRequest` constructor and `ExecMethod`.

External Windows/COM calls (`IWbemClassObject::Get`, `CoCreateInstance`,
`IEnumWbemClassObject::Next`, ...) are modelled by explicit environment
records carrying the HRESULTs and values those calls return; the `VARIANT`
union is modelled by a raw 64-bit numeric payload plus the pointer-valued
members, with each union-member read (`lVal`, `uiVal`, `bVal`, ...) extracting
the corresponding low bits of the payload exactly as the overlapping
little-endian union members do.
-/

set_option autoImplicit false

namespace osquery

/-- The HRESULT success value `S_OK` (0). -/
def S_OK : Int := 0

/-- The HRESULT failure value `E_FAIL` (0x80004005 as a signed 32-bit value). -/
def E_FAIL : Int := -2147467259

/-- The `SUCCEEDED(hr)` macro: a non-negative HRESULT. -/
def SUCCEEDED (hr : Int) : Bool := 0 ≤ hr

/-- The `FAILED(hr)` macro: a negative HRESULT. -/
def FAILED (hr : Int) : Bool := hr < 0

/-- `WBEM_S_NO_ERROR` (0), the enumerator's continue signal. -/
def WBEM_S_NO_ERROR : Int := 0

/-- `WBEM_S_FALSE` (1), the enumerator's end-of-results signal. -/
def WBEM_S_FALSE : Int := 1

/-- `WBEM_E_NOT_FOUND` (0x80041002 as a signed 32-bit value): the HRESULT
`IWbemClassObject::Get` yields for a property that does not exist. -/
def WBEM_E_NOT_FOUND : Int := -2147217406

/-- VARTYPE tag `VT_I4` (32-bit signed integer). -/
def VT_I4 : Nat := 3

/-- VARTYPE tag `VT_BSTR` (allocated wide string). -/
def VT_BSTR : Nat := 8

/-- VARTYPE tag `VT_BOOL`. -/
def VT_BOOL : Nat := 11

/-- VARTYPE tag `VT_UI1` (8-bit unsigned integer). -/
def VT_UI1 : Nat := 17

/-- VARTYPE tag `VT_UI2` (16-bit unsigned integer). -/
def VT_UI2 : Nat := 18

/-- VARTYPE tag `VT_UI4` (32-bit unsigned integer). -/
def VT_UI4 : Nat := 19

/-- VARTYPE tag `VT_I8` (64-bit signed integer). -/
def VT_I8 : Nat := 20

/-- VARTYPE tag `VT_UI8` (64-bit unsigned integer). -/
def VT_UI8 : Nat := 21

/-- VARTYPE tag `VT_UINT`. -/
def VT_UINT : Nat := 22

/-- VARTYPE array flag `VT_ARRAY` (0x2000). -/
def VT_ARRAY : Nat := 8192

/-- `VARIANT_TRUE`: the 16-bit `VARIANT_BOOL` true value 0xFFFF, i.e. -1 when
read through the signed `boolVal` member. -/
def VARIANT_TRUE : Int := -1

/-- Reads a natural number's low 32 bits as a signed 32-bit integer
(two's complement), the way the `LONG lVal` union member reinterprets the
low machine word of the payload. -/
def toInt32 (n : Nat) : Int :=
  if n % 2 ^ 32 < 2 ^ 31 then ((n % 2 ^ 32 : Nat) : Int)
  else ((n % 2 ^ 32 : Nat) : Int) - 2 ^ 32

/-- Reads a natural number's low 16 bits as a signed 16-bit integer
(two's complement), the `VARIANT_BOOL boolVal` member. -/
def toInt16 (n : Nat) : Int :=
  if n % 2 ^ 16 < 2 ^ 15 then ((n % 2 ^ 16 : Nat) : Int)
  else ((n % 2 ^ 16 : Nat) : Int) - 2 ^ 16

/-- C conversion of a signed integer to a 32-bit unsigned integer
(reduction modulo 2^32). -/
def toUInt32n (i : Int) : Nat := (i % (2 ^ 32 : Int)).toNat

/-- C conversion of a signed integer to a 64-bit unsigned integer
(reduction modulo 2^64). -/
def toUInt64n (i : Int) : Nat := (i % (2 ^ 64 : Int)).toNat

/-- A COM SAFEARRAY of BSTR elements: the buffer `SafeArrayAccessData`
exposes (`elems`, whose position 0 is the element stored at array index
`lbound`) together with the lower bound `SafeArrayGetLBound` reports; the
upper bound reported by `SafeArrayGetUBound` is `lbound + elems.length - 1`.
A BSTR is `Option String`: `none` is a null pointer. -/
structure SafeArray where
  lbound : Int
  elems : List (Option String)
deriving DecidableEq

/-- The tagged `VARIANT` union: `vt` is the VARTYPE tag; `bits` is the raw
numeric payload (the overlapping integer members read their width's low bits
out of it); `bstrVal` and `parray` are the pointer-valued members. -/
structure VARIANT where
  vt : Nat := 0
  bits : Nat := 0
  bstrVal : Option String := none
  parray : SafeArray := ⟨0, []⟩
deriving DecidableEq

/-- Union member `LONG lVal`: the low 32 bits of the payload, signed. -/
def VARIANT.lVal (v : VARIANT) : Int := toInt32 v.bits

/-- Union member `ULONG ulVal`: the low 32 bits of the payload, unsigned. -/
def VARIANT.ulVal (v : VARIANT) : Nat := v.bits % 2 ^ 32

/-- Union member `USHORT uiVal`: the low 16 bits of the payload. -/
def VARIANT.uiVal (v : VARIANT) : Nat := v.bits % 2 ^ 16

/-- Union member `BYTE bVal`: the low 8 bits of the payload. -/
def VARIANT.bVal (v : VARIANT) : Nat := v.bits % 2 ^ 8

/-- Union member `VARIANT_BOOL boolVal`: the low 16 bits, signed. -/
def VARIANT.boolVal (v : VARIANT) : Int := toInt16 v.bits

/-- The external `bstrToString` transcoding helper: decodes a BSTR to a
narrow string (a null pointer decodes to the empty string). -/
def bstrToString : Option String → String
  | none => ""
  | some s => s

/-- The osquery `Status` result type: code 0 with message OK is success,
`Status::failure` carries code 1 and a message. -/
structure Status where
  code : Int
  message : String
deriving DecidableEq

/-- The literal status messages of wmi.cpp. -/
def msgOK : String := "OK"

def msgErrRetrieving : String := "Error retrieving data from WMI query."

def msgInvalidType : String := "Invalid data type returned."

def msgErrDatetime : String := "Error retrieving datetime from WMI query result."

def msgExpectedBstr : String := "Expected VT_BSTR, got something else."

def msgCreateDT : String := "Failed to create SWbemDateTime object."

def msgSetDT : String := "Failed to set SWbemDateTime value."

def msgGetFileTime : String := "GetFileTime failed."

def msgOutOfMemory : String := "Out of memory"

def msgClassNameOOM : String := "Class name out of memory"

def msgGetObject : String := "Failed to GetObject"

def msgGetMethod : String := "Failed to GetMethod"

def msgSpawnInstance : String := "Failed to SpawnInstance"

def msgPutArgs : String := "Failed to Put arguments"

def msgExecMethod : String := "Failed to ExecMethod"

/-- `Status::success()`. -/
def Status.success : Status := ⟨0, msgOK⟩

/-- `Status::failure(message)`. -/
def Status.failure (m : String) : Status := ⟨1, m⟩

/-- `Status::ok()`: code 0. -/
def Status.ok (s : Status) : Bool := s.code == 0

/-- The outcome of one `IWbemClassObject::Get` call on a property: the
HRESULT and, when `hr = S_OK`, the property's `VARIANT` dynamic value. -/
structure FieldGet where
  hr : Int
  value : VARIANT
deriving DecidableEq

/-- A `WmiResultItem` wraps one remote object handle; the handle is modelled
by the property table the remote `Get` call reads from. -/
structure WmiResultItem where
  fields : List (String × FieldGet)
deriving DecidableEq

/-- The `result_->Get(name, ...)` call: looks the property up in the wrapped
object; a property the object does not have fails with `WBEM_E_NOT_FOUND`. -/
def WmiResultItem.getField (it : WmiResultItem) (name : String) : FieldGet :=
  match it.fields.find? (fun p => p.1 == name) with
  | some p => p.2
  | none => ⟨WBEM_E_NOT_FOUND, {}⟩

/-- `WmiResultItem::GetBool` (wmi.cpp:91-106). The by-reference output is
modelled by passing the caller's current value `ret` in and returning the
value the reference holds after the call. -/
def WmiResultItem.GetBool (it : WmiResultItem) (name : String) (ret : Bool) :
    Status × Bool :=
  let r := it.getField name
  if r.hr ≠ S_OK then (Status.failure msgErrRetrieving, ret)
  else if r.value.vt ≠ VT_BOOL then (Status.failure msgInvalidType, ret)
  else (Status.success, r.value.boolVal == VARIANT_TRUE)

/-- `WmiResultItem::GetUChar` (wmi.cpp:159-174): reads `bVal`. -/
def WmiResultItem.GetUChar (it : WmiResultItem) (name : String) (ret : Nat) :
    Status × Nat :=
  let r := it.getField name
  if r.hr ≠ S_OK then (Status.failure msgErrRetrieving, ret)
  else if r.value.vt ≠ VT_UI1 then (Status.failure msgInvalidType, ret)
  else (Status.success, r.value.bVal)

/-- `WmiResultItem::GetUnsignedShort` (wmi.cpp:176-192): reads `uiVal`. -/
def WmiResultItem.GetUnsignedShort (it : WmiResultItem) (name : String)
    (ret : Nat) : Status × Nat :=
  let r := it.getField name
  if r.hr ≠ S_OK then (Status.failure msgErrRetrieving, ret)
  else if r.value.vt ≠ VT_UI2 then (Status.failure msgInvalidType, ret)
  else (Status.success, r.value.uiVal)

/-- `WmiResultItem::GetUnsignedInt32` (wmi.cpp:194-210): expects `VT_UINT`
and reads the 16-bit `uiVal` union member, exactly as the source does. -/
def WmiResultItem.GetUnsignedInt32 (it : WmiResultItem) (name : String)
    (ret : Nat) : Status × Nat :=
  let r := it.getField name
  if r.hr ≠ S_OK then (Status.failure msgErrRetrieving, ret)
  else if r.value.vt ≠ VT_UINT then (Status.failure msgInvalidType, ret)
  else (Status.success, r.value.uiVal)

/-- `WmiResultItem::GetLong` (wmi.cpp:212-226): expects `VT_I4`, reads
`lVal`. -/
def WmiResultItem.GetLong (it : WmiResultItem) (name : String) (ret : Int) :
    Status × Int :=
  let r := it.getField name
  if r.hr ≠ S_OK then (Status.failure msgErrRetrieving, ret)
  else if r.value.vt ≠ VT_I4 then (Status.failure msgInvalidType, ret)
  else (Status.success, r.value.lVal)

/-- `WmiResultItem::GetUnsignedLong` (wmi.cpp:228-243): expects `VT_UI4`,
reads the signed `lVal` member into an `unsigned long` output (a modular
signed-to-unsigned conversion). -/
def WmiResultItem.GetUnsignedLong (it : WmiResultItem) (name : String)
    (ret : Nat) : Status × Nat :=
  let r := it.getField name
  if r.hr ≠ S_OK then (Status.failure msgErrRetrieving, ret)
  else if r.value.vt ≠ VT_UI4 then (Status.failure msgInvalidType, ret)
  else (Status.success, toUInt32n r.value.lVal)

/-- `WmiResultItem::GetLongLong` (wmi.cpp:245-260): expects `VT_I8` but reads
the 32-bit `lVal` union member into the 64-bit output, exactly as the source
line `ret = value.lVal` does. -/
def WmiResultItem.GetLongLong (it : WmiResultItem) (name : String)
    (ret : Int) : Status × Int :=
  let r := it.getField name
  if r.hr ≠ S_OK then (Status.failure msgErrRetrieving, ret)
  else if r.value.vt ≠ VT_I8 then (Status.failure msgInvalidType, ret)
  else (Status.success, r.value.lVal)

/-- `WmiResultItem::GetUnsignedLongLong` (wmi.cpp:262-277): expects `VT_UI8`
but reads the 32-bit signed `lVal` member into the unsigned 64-bit output. -/
def WmiResultItem.GetUnsignedLongLong (it : WmiResultItem) (name : String)
    (ret : Nat) : Status × Nat :=
  let r := it.getField name
  if r.hr ≠ S_OK then (Status.failure msgErrRetrieving, ret)
  else if r.value.vt ≠ VT_UI8 then (Status.failure msgInvalidType, ret)
  else (Status.success, toUInt64n r.value.lVal)

/-- `WmiResultItem::GetString` (wmi.cpp:279-296): on both failure paths the
source assigns the empty string to the output reference before returning. -/
def WmiResultItem.GetString (it : WmiResultItem) (name : String)
    (ret : String) : Status × String :=
  let r := it.getField name
  if r.hr ≠ S_OK then (Status.failure msgErrRetrieving, "")
  else if r.value.vt ≠ VT_BSTR then (Status.failure msgInvalidType, "")
  else (Status.success, bstrToString r.value.bstrVal)

/-- `WmiResultItem::GetVectorOfStrings` (wmi.cpp:298-324): checks the tag
against `VT_BSTR | VT_ARRAY`, computes `count = ubound - lbound + 1` from the
reported array bounds, and pushes the decoded element at buffer position `i`
for `0 ≤ i < count` onto the caller's vector. -/
def WmiResultItem.GetVectorOfStrings (it : WmiResultItem) (name : String)
    (ret : List String) : Status × List String :=
  let r := it.getField name
  if r.hr ≠ S_OK then (Status.failure msgErrRetrieving, ret)
  else if r.value.vt ≠ (VT_BSTR ||| VT_ARRAY) then
    (Status.failure msgInvalidType, ret)
  else
    let lbound := r.value.parray.lbound
    let ubound := r.value.parray.lbound + r.value.parray.elems.length - 1
    let count : Int := ubound - lbound + 1
    (Status.success,
      ret ++ (List.range count.toNat).map
        (fun i => bstrToString (r.value.parray.elems.getD i none)))

/-- The external collaborators `WmiResultItem::GetDateTime` calls after the
tag check: the HRESULTs of `CoCreateInstance`, `ISWbemDateTime::put_Value`
and `ISWbemDateTime::GetFileTime`, the BSTR the latter yields, and the C
runtime `_wtoi64` parse of that string. -/
structure DateTimeEnv where
  hrCreateInstance : Int
  hrPutValue : Int
  hrGetFileTime : Int
  filetimeStr : String
  wtoi64 : String → Int

/-- The Windows `FILETIME` pair of 32-bit words. -/
structure FILETIME where
  dwLowDateTime : Nat
  dwHighDateTime : Nat
deriving DecidableEq

/-- `WmiResultItem::GetDateTime` (wmi.cpp:108-157): tag must be `VT_BSTR`;
then a helper date-time object renders the FILETIME as a numeric string that
`_wtoi64` parses; the 64-bit quad is split into low/high 32-bit words. -/
def WmiResultItem.GetDateTime (env : DateTimeEnv) (it : WmiResultItem)
    (name : String) (ft : FILETIME) : Status × FILETIME :=
  let r := it.getField name
  if r.hr ≠ S_OK then (Status.failure msgErrDatetime, ft)
  else if r.value.vt ≠ VT_BSTR then (Status.failure msgExpectedBstr, ft)
  else if ¬ SUCCEEDED env.hrCreateInstance then (Status.failure msgCreateDT, ft)
  else if ¬ SUCCEEDED env.hrPutValue then (Status.failure msgSetDT, ft)
  else if ¬ SUCCEEDED env.hrGetFileTime then (Status.failure msgGetFileTime, ft)
  else
    let quad := toUInt64n (env.wtoi64 env.filetimeStr)
    (Status.success, ⟨quad % 2 ^ 32, quad / 2 ^ 32⟩)

/-- Modelled from the spec: the `arguments` member of `WmiMethodArgs` is
declared in the header `wmi.h`, which is not part of the provided source.
The spec (section 3, section 4.3) describes it as an append-only keyed
collection of name-to-dynamic-value pairs preserving insertion order, so it
is modelled as an association list on which a keyed insert appends a fresh
key and leaves the collection unchanged when the key is already present. -/
structure WmiMethodArgs where
  arguments : List (String × VARIANT)
deriving DecidableEq

/-- Whether the collection already holds an entry for `name`. -/
def hasKey (l : List (String × VARIANT)) (name : String) : Bool :=
  l.any (fun p => p.1 == name)

/-- The keyed insert of `arguments.insert(std::pair(name, var))`: a no-op on
an existing key, an append otherwise. -/
def insertKeyed (l : List (String × VARIANT)) (name : String) (v : VARIANT) :
    List (String × VARIANT) :=
  if hasKey l name then l else l ++ [(name, v)]

/-- `WmiMethodArgs::Put<unsigned int>` (wmi.cpp:34-43): builds a `VT_UI4`
variant holding the 32-bit value and inserts it; always succeeds. -/
def WmiMethodArgs.PutUInt (a : WmiMethodArgs) (name : String) (value : Nat) :
    Status × WmiMethodArgs :=
  let var : VARIANT := { vt := VT_UI4, bits := value % 2 ^ 32 }
  (Status.success, ⟨insertKeyed a.arguments name var⟩)

/-- `WmiMethodArgs::Put<std::string>` (wmi.cpp:45-59): allocates a BSTR from
the wide transcoding of `value`; `allocFails` models `SysAllocString`
returning null, in which case the collection is left unmodified. -/
def WmiMethodArgs.PutString (a : WmiMethodArgs) (allocFails : Bool)
    (name : String) (value : String) : Status × WmiMethodArgs :=
  if allocFails then (Status.failure msgOutOfMemory, a)
  else
    let var : VARIANT := { vt := VT_BSTR, bstrVal := some value }
    (Status.success, ⟨insertKeyed a.arguments name var⟩)

/-- `WmiMethodArgs::GetArguments` exposes the collection read-only. -/
def WmiMethodArgs.GetArguments (a : WmiMethodArgs) :
    List (String × VARIANT) := a.arguments

/-- `WmiMethodArgs::WmiMethodArgs(WmiMethodArgs&&)` (wmi.cpp:18-20): the
destination's `arguments` member is default-initialized empty and then
swapped with the source's; the result is the pair (destination, source after
the move). -/
def WmiMethodArgs.moveFrom (src : WmiMethodArgs) :
    WmiMethodArgs × WmiMethodArgs :=
  (⟨src.arguments⟩, ⟨[]⟩)

/-- `WmiMethodArgs::~WmiMethodArgs` (wmi.cpp:22-32): walks the collection and
calls `SysFreeString` on each member whose tag is `VT_BSTR` and whose string
pointer is non-null. The destructor's observable effect is the ordered list
of string handles it frees. -/
def WmiMethodArgs.destructorFrees (a : WmiMethodArgs) : List String :=
  a.arguments.filterMap
    (fun p => if p.2.vt == VT_BSTR then p.2.bstrVal else none)

/-- One `Put` call of a build sequence (the two specializations the source
provides). -/
inductive PutOp where
  | putUInt (name : String) (value : Nat)
  | putStr (name : String) (value : String)
deriving DecidableEq

/-- The argument name a `Put` call inserts under. -/
def PutOp.argName : PutOp → String
  | .putUInt n _ => n
  | .putStr n _ => n

/-- Applies one `Put` call (string allocation succeeding). -/
def WmiMethodArgs.applyOne (a : WmiMethodArgs) : PutOp → Status × WmiMethodArgs
  | .putUInt n v => a.PutUInt n v
  | .putStr n v => a.PutString false n v

/-- Applies a sequence of `Put` calls in order. -/
def WmiMethodArgs.applyPuts (a : WmiMethodArgs) : List PutOp → WmiMethodArgs
  | [] => a
  | op :: rest => WmiMethodArgs.applyPuts (a.applyOne op).2 rest

/-- One `IEnumWbemClassObject::Next(WBEM_INFINITE, 1, &result, &result_count)`
outcome: the HRESULT, the returned count, and the retrieved object handle
(a numeric handle id). -/
structure NextStep where
  hr : Int
  resultCount : Nat
  result : Nat
deriving DecidableEq

/-- The drain loop of the constructor (wmi.cpp:372-381): starting from
`hr = WBEM_S_NO_ERROR`, each iteration calls `Next`, appends the retrieved
handle when `SUCCEEDED(hr) && result_count > 0`, and continues only while
`hr == WBEM_S_NO_ERROR`. The enumerator is modelled as the list of outcomes
its successive `Next` calls yield; an exhausted list behaves as the
end-of-results signal `WBEM_S_FALSE`. -/
def drainEnum : List NextStep → List Nat
  | [] => []
  | s :: rest =>
    (if SUCCEEDED s.hr ∧ s.resultCount > 0 then [s.result] else [])
      ++ (if s.hr = WBEM_S_NO_ERROR then drainEnum rest else [])

/-- The `Next` outcomes the drain loop actually consumes: every step up to
and including the first whose HRESULT differs from `WBEM_S_NO_ERROR`. -/
def stepsTaken : List NextStep → List NextStep
  | [] => []
  | s :: rest => s :: (if s.hr = WBEM_S_NO_ERROR then stepsTaken rest else [])

/-- The external outcomes a `WmiRequest` construction observes: the HRESULTs
of `CoInitializeSecurity`, `CoCreateInstance` (locator), `ConnectServer` and
`ExecQuery`, and the enumerator's stream of `Next` outcomes. -/
structure WmiWorld where
  hrInitSecurity : Int
  hrCreateLocator : Int
  hrConnectServer : Int
  hrExecQuery : Int
  nextSteps : List NextStep
deriving DecidableEq

/-- Message of the modelled initial `status_` value. -/
def msgNotInitialized : String := "WmiRequest construction failed"

/-- Modelled from the spec: the member initializer of `status_` lives in the
header `wmi.h`, which is not part of the provided source. The spec (section 3,
section 7) states that a construction that fails partway leaves the Request
carrying a failure status, so the initial status is a failure that the
constructor body overwrites only when it reaches its final line. -/
def initialStatus : Status := Status.failure msgNotInitialized

/-- Names for the three chain resources, used to report releases. -/
def rsrcLocator : String := "locator"

def rsrcServices : String := "services"

def rsrcEnumerator : String := "enumerator"

/-- The observable result of running the `WmiRequest` constructor: which of
the three chain resources were acquired (stored into their owning smart
pointers), the drained result handles, and the final `status_`. -/
structure WmiRequestState where
  locatorAcquired : Bool
  servicesAcquired : Bool
  enumAcquired : Bool
  results : List Nat
  status : Status
deriving DecidableEq

/-- `WmiRequest::WmiRequest` (wmi.cpp:326-384). The HRESULT of
`CoInitializeSecurity` is stored into `hr` but immediately overwritten by the
`CoCreateInstance` call without being examined (wmi.cpp:332-346), so it does
not influence the chain. Each later step returns early on `hr != S_OK`,
leaving `status_` at its initializer; only the full chain reaches
`status_ = Status(0)`. -/
def WmiRequest.construct (w : WmiWorld) : WmiRequestState :=
  if w.hrCreateLocator ≠ S_OK then ⟨false, false, false, [], initialStatus⟩
  else if w.hrConnectServer ≠ S_OK then ⟨true, false, false, [], initialStatus⟩
  else if w.hrExecQuery ≠ S_OK then ⟨true, true, false, [], initialStatus⟩
  else ⟨true, true, true, drainEnum w.nextSteps, ⟨0, msgOK⟩⟩

/-- Modelled from the spec: the `WmiRequest` destructor and the owning smart
pointers are declared in `wmi.h`, which is not part of the provided source.
The spec (section 3, section 9) states each acquired chain resource is
exclusively owned and released in reverse-acquisition order on destruction. -/
def WmiRequestState.releasedOnDestroy (st : WmiRequestState) : List String :=
  (if st.enumAcquired then [rsrcEnumerator] else [])
    ++ (if st.servicesAcquired then [rsrcServices] else [])
    ++ (if st.locatorAcquired then [rsrcLocator] else [])

/-- The system property names `ExecMethod` reads off the target object. -/
def propCLASS : String := "__CLASS"

def propPATH : String := "__PATH"

/-- `WbemClassObjectPropToBSTR` (wmi.cpp:62-72): reads a string property of
the item and allocates a BSTR from its wide transcoding; yields null when the
`GetString` fails or the allocation fails (`allocOk = false`). -/
def WbemClassObjectPropToBSTR (allocOk : Bool) (it : WmiResultItem)
    (property : String) : Option String :=
  let r := it.GetString property ""
  if ¬ r.1.ok then none
  else if allocOk then some r.2 else none

/-- The external outcomes a `WmiRequest::ExecMethod` call observes: BSTR
allocation successes, the HRESULTs of `GetObject`, `GetMethod`,
`SpawnInstance`, of each `args_inst->Put` (by argument name) and of the
remote `ExecMethod`, whether `GetMethod` yielded a non-null input-parameter
schema, and the output-parameter object handle. -/
structure ExecEnv where
  allocClassName : Bool
  hrGetObject : Int
  hrGetMethod : Int
  inDef : Bool
  hrSpawnInstance : Int
  hrPut : String → Int
  allocMethName : Bool
  allocObjPath : Bool
  hrExecMethod : Int
  outParams : Nat

/-- The observable trace of one `ExecMethod` call: whether an argument
instance was spawned, which argument names were handed to `args_inst->Put`
(in order, up to the first failing one), whether the remote invocation was
reached and with a null argument instance, the produced output item handle,
and the returned status. -/
structure ExecTrace where
  spawnedInstance : Bool
  putAttempts : List String
  execCalled : Bool
  argsInstNull : Bool
  outResult : Option Nat
  status : Status
deriving DecidableEq

/-- The argument-copy loop of `ExecMethod` (wmi.cpp:434-444): puts each
(name, value) pair of `args.GetArguments()` in order, returning early on the
first `FAILED` HRESULT. Yields the names attempted and whether all
succeeded. -/
def putArgsLoop (env : ExecEnv) : List (String × VARIANT) →
    List String × Bool
  | [] => ([], true)
  | p :: rest =>
    if FAILED (env.hrPut p.1) then ([p.1], false)
    else
      let r := putArgsLoop env rest
      (p.1 :: r.1, r.2)

/-- The tail of `ExecMethod` (wmi.cpp:449-481): allocates the method-name
BSTR, resolves the object path from `__PATH`, performs the remote invocation
and wraps the output-parameter object on success. -/
def finishExec (env : ExecEnv) (object : WmiResultItem) (spawned : Bool)
    (names : List String) (argsNull : Bool) : ExecTrace :=
  if ¬ env.allocMethName then
    ⟨spawned, names, false, argsNull, none, Status.failure msgOutOfMemory⟩
  else
    match WbemClassObjectPropToBSTR env.allocObjPath object propPATH with
    | none =>
      ⟨spawned, names, false, argsNull, none, Status.failure msgOutOfMemory⟩
    | some _ =>
      if FAILED env.hrExecMethod then
        ⟨spawned, names, true, argsNull, none, Status.failure msgExecMethod⟩
      else
        ⟨spawned, names, true, argsNull, some env.outParams, Status.success⟩

/-- `WmiRequest::ExecMethod` (wmi.cpp:386-482): resolves the class name from
`__CLASS`, fetches the class definition and the method's input-parameter
schema, spawns and fills an argument instance only when that schema is
non-null (wmi.cpp:426), and invokes the remote method — with a null argument
instance when no schema was present. -/
def WmiRequest.ExecMethod (env : ExecEnv) (object : WmiResultItem)
    (args : WmiMethodArgs) : ExecTrace :=
  match WbemClassObjectPropToBSTR env.allocClassName object propCLASS with
  | none => ⟨false, [], false, true, none, Status.failure msgClassNameOOM⟩
  | some _ =>
    if FAILED env.hrGetObject then
      ⟨false, [], false, true, none, Status.failure msgGetObject⟩
    else if FAILED env.hrGetMethod then
      ⟨false, [], false, true, none, Status.failure msgGetMethod⟩
    else if env.inDef then
      if FAILED env.hrSpawnInstance then
        ⟨false, [], false, true, none, Status.failure msgSpawnInstance⟩
      else
        let r := putArgsLoop env args.arguments
        if ¬ r.2 then
          ⟨true, r.1, false, false, none, Status.failure msgPutArgs⟩
        else finishExec env object true r.1 false
    else finishExec env object false [] true

/-! Helper lemmas and concrete inputs. -/

/-- Reading the low 32 bits through the signed `lVal` member and converting
back to `unsigned long` is the identity on the low 32 bits. -/
theorem toUInt32n_toInt32 (n : Nat) : toUInt32n (toInt32 n) = n % 2 ^ 32 := by
  unfold toUInt32n toInt32
  split <;> omega

/-- Field name used by the concrete witness items. -/
def fieldV : String := "v"

def strX : String := "x"

/-- A result item holding a `VT_I8` field whose 64-bit payload is 2^32. -/
def itemI8big : WmiResultItem :=
  ⟨[(fieldV, ⟨S_OK, { vt := VT_I8, bits := 4294967296 }⟩)]⟩

/-- A result item holding a `VT_UI8` field whose 64-bit payload is 2^32. -/
def itemUI8big : WmiResultItem :=
  ⟨[(fieldV, ⟨S_OK, { vt := VT_UI8, bits := 4294967296 }⟩)]⟩

/-- A result item holding a `VT_I4` field with value 7. -/
def itemI4seven : WmiResultItem :=
  ⟨[(fieldV, ⟨S_OK, { vt := VT_I4, bits := 7 }⟩)]⟩

/-- C1: the 64-bit getters match their expected tags and return success, but
they read the 32-bit `lVal` union member (wmi.cpp:257, wmi.cpp:274), so on a
field whose stored 64-bit payload is 2^32 = 4294967296 both getters return 0
instead of the stored value: the spec's full-64-bit-value contract is the
documented intent (its section 9 flags this very read as a latent truncation
bug) and the code violates it. -/
theorem claim1_longlong_truncates :
    itemI8big.GetLongLong fieldV 0 = (Status.success, 0)
    ∧ itemUI8big.GetUnsignedLongLong fieldV 0 = (Status.success, 0)
    ∧ (itemI8big.getField fieldV).value.bits = 4294967296
    ∧ (itemUI8big.getField fieldV).value.bits = 4294967296
    ∧ (0 : Int) ≠ 4294967296 := by
  refine ⟨?_, ?_, by decide, by decide, by decide⟩ <;> decide

/-- C2 as stated is false: on a tag mismatch `GetString` does not leave the
caller's output untouched — it resets it to the empty string
(wmi.cpp:288-291), even though it does return the type-mismatch failure. -/
theorem claim2_counterexample :
    (itemI4seven.GetString fieldV strX).1 = Status.failure msgInvalidType
    ∧ (itemI4seven.GetString fieldV strX).2 ≠ strX := by
  constructor <;> decide

/-- C2 amended: on a field whose tag differs from the one the getter expects,
every getter returns the type-mismatch failure; the numeric, vector and
datetime getters leave the output parameter unchanged, but `GetString`
resets it to the empty string. -/
theorem claim2_amended_mismatch :
    (∀ (it : WmiResultItem) (name : String) (v : VARIANT) (r : Bool),
      it.getField name = ⟨S_OK, v⟩ → v.vt ≠ VT_BOOL →
      it.GetBool name r = (Status.failure msgInvalidType, r))
    ∧ (∀ (it : WmiResultItem) (name : String) (v : VARIANT) (r : Nat),
      it.getField name = ⟨S_OK, v⟩ → v.vt ≠ VT_UI1 →
      it.GetUChar name r = (Status.failure msgInvalidType, r))
    ∧ (∀ (it : WmiResultItem) (name : String) (v : VARIANT) (r : Nat),
      it.getField name = ⟨S_OK, v⟩ → v.vt ≠ VT_UI2 →
      it.GetUnsignedShort name r = (Status.failure msgInvalidType, r))
    ∧ (∀ (it : WmiResultItem) (name : String) (v : VARIANT) (r : Nat),
      it.getField name = ⟨S_OK, v⟩ → v.vt ≠ VT_UINT →
      it.GetUnsignedInt32 name r = (Status.failure msgInvalidType, r))
    ∧ (∀ (it : WmiResultItem) (name : String) (v : VARIANT) (r : Int),
      it.getField name = ⟨S_OK, v⟩ → v.vt ≠ VT_I4 →
      it.GetLong name r = (Status.failure msgInvalidType, r))
    ∧ (∀ (it : WmiResultItem) (name : String) (v : VARIANT) (r : Nat),
      it.getField name = ⟨S_OK, v⟩ → v.vt ≠ VT_UI4 →
      it.GetUnsignedLong name r = (Status.failure msgInvalidType, r))
    ∧ (∀ (it : WmiResultItem) (name : String) (v : VARIANT) (r : Int),
      it.getField name = ⟨S_OK, v⟩ → v.vt ≠ VT_I8 →
      it.GetLongLong name r = (Status.failure msgInvalidType, r))
    ∧ (∀ (it : WmiResultItem) (name : String) (v : VARIANT) (r : Nat),
      it.getField name = ⟨S_OK, v⟩ → v.vt ≠ VT_UI8 →
      it.GetUnsignedLongLong name r = (Status.failure msgInvalidType, r))
    ∧ (∀ (it : WmiResultItem) (name : String) (v : VARIANT) (r : String),
      it.getField name = ⟨S_OK, v⟩ → v.vt ≠ VT_BSTR →
      it.GetString name r = (Status.failure msgInvalidType, ""))
    ∧ (∀ (it : WmiResultItem) (name : String) (v : VARIANT)
        (r : List String),
      it.getField name = ⟨S_OK, v⟩ → v.vt ≠ VT_BSTR ||| VT_ARRAY →
      it.GetVectorOfStrings name r = (Status.failure msgInvalidType, r))
    ∧ (∀ (env : DateTimeEnv) (it : WmiResultItem) (name : String)
        (v : VARIANT) (r : FILETIME),
      it.getField name = ⟨S_OK, v⟩ → v.vt ≠ VT_BSTR →
      it.GetDateTime env name r = (Status.failure msgExpectedBstr, r)) := by
  refine ⟨?_, ?_, ?_, ?_, ?_, ?_, ?_, ?_, ?_, ?_, ?_⟩ <;>
    intro a b c d e f <;>
    first
    | (intro g
       simp [WmiResultItem.GetDateTime, f, g, S_OK])
    | simp [WmiResultItem.GetBool, WmiResultItem.GetUChar,
        WmiResultItem.GetUnsignedShort, WmiResultItem.GetUnsignedInt32,
        WmiResultItem.GetLong, WmiResultItem.GetUnsignedLong,
        WmiResultItem.GetLongLong, WmiResultItem.GetUnsignedLongLong,
        WmiResultItem.GetString, WmiResultItem.GetVectorOfStrings,
        e, f, S_OK]

/-- Witness for the amended C2 at concrete inputs: a `VT_I4` field rejected
by `GetBool` (output untouched) and by `GetString` (output reset). -/
theorem claim2_amended_mismatch_witness :
    itemI4seven.getField fieldV = ⟨S_OK, { vt := VT_I4, bits := 7 }⟩
    ∧ VT_I4 ≠ VT_BOOL
    ∧ itemI4seven.GetBool fieldV true = (Status.failure msgInvalidType, true)
    ∧ itemI4seven.GetString fieldV strX
        = (Status.failure msgInvalidType, "") :=
  ⟨by decide, by decide,
    claim2_amended_mismatch.1 itemI4seven fieldV
      { vt := VT_I4, bits := 7 } true (by decide) (by decide),
    (claim2_amended_mismatch.2.2.2.2.2.2.2.2.1) itemI4seven fieldV
      { vt := VT_I4, bits := 7 } strX (by decide) (by decide)⟩

/-- The variant `WmiMethodArgs::Put<unsigned int>` builds (wmi.cpp:37-39). -/
def putUIntVariant (value : Nat) : VARIANT :=
  { vt := VT_UI4, bits := value % 2 ^ 32 }

/-- A result item holding the variant `Put<unsigned int>` builds for 5. -/
def itemUI4five : WmiResultItem := ⟨[(fieldV, ⟨S_OK, putUIntVariant 5⟩)]⟩

/-- C5: `Put<unsigned int>` tags its variant `VT_UI4` (wmi.cpp:38), which is
not the `VT_UINT` tag `GetUnsignedInt32` checks for (wmi.cpp:203); on any
field carrying such a variant `GetUnsignedInt32` fails with the type
mismatch while `GetUnsignedLong` succeeds and returns the stored value. -/
theorem claim5_ui4_not_uint :
    VT_UI4 ≠ VT_UINT
    ∧ (∀ (a : WmiMethodArgs) (n : String) (value : Nat),
        (a.PutUInt n value).2.arguments
          = insertKeyed a.arguments n (putUIntVariant value)
        ∧ (a.PutUInt n value).1 = Status.success)
    ∧ (∀ (it : WmiResultItem) (name : String) (value : Nat) (r1 r2 : Nat),
        value < 2 ^ 32 →
        it.getField name = ⟨S_OK, putUIntVariant value⟩ →
        it.GetUnsignedInt32 name r1 = (Status.failure msgInvalidType, r1)
        ∧ it.GetUnsignedLong name r2 = (Status.success, value)) := by
  refine ⟨by decide, ?_, ?_⟩
  · intro a n value
    exact ⟨rfl, rfl⟩
  · intro it name value r1 r2 hlt hget
    constructor
    · simp [WmiResultItem.GetUnsignedInt32, hget, putUIntVariant, S_OK,
        VT_UI4, VT_UINT]
    · simp [WmiResultItem.GetUnsignedLong, hget, putUIntVariant, S_OK,
        VARIANT.lVal, toUInt32n_toInt32]
      omega

/-- Witness for C5 at the value 5. -/
theorem claim5_ui4_not_uint_witness :
    (5 : Nat) < 2 ^ 32
    ∧ itemUI4five.getField fieldV = ⟨S_OK, putUIntVariant 5⟩
    ∧ itemUI4five.GetUnsignedInt32 fieldV 9
        = (Status.failure msgInvalidType, 9)
    ∧ itemUI4five.GetUnsignedLong fieldV 3 = (Status.success, 5) :=
  ⟨by decide, by decide,
    (claim5_ui4_not_uint.2.2 itemUI4five fieldV 5 9 3 (by decide)
      (by decide)).1,
    (claim5_ui4_not_uint.2.2 itemUI4five fieldV 5 9 3 (by decide)
      (by decide)).2⟩

/-- Whether every connection-chain step of the construction succeeded
(locator creation, service binding, query execution; the ignored security
initialization is not part of the chain the code examines). -/
def chainOk (w : WmiWorld) : Bool :=
  w.hrCreateLocator == S_OK && w.hrConnectServer == S_OK
    && w.hrExecQuery == S_OK

/-- Whether the full drain succeeded: no `Next` call the loop consumed
returned a failure HRESULT. -/
def drainOk (w : WmiWorld) : Bool :=
  (stepsTaken w.nextSteps).all (fun s => !(FAILED s.hr))

/-- C3 as frozen, at one world: either the whole chain and the full drain
succeed and the status is success, or some step fails and the status is a
failure. -/
def claim3Statement (w : WmiWorld) : Prop :=
  (chainOk w = true ∧ drainOk w = true
    ∧ (WmiRequest.construct w).status.ok = true)
  ∨ (¬(chainOk w = true ∧ drainOk w = true)
    ∧ (WmiRequest.construct w).status.ok = false)

/-- A world whose connection chain succeeds but whose first enumerator
`Next` call returns `E_FAIL`. -/
def world3cex : WmiWorld := ⟨S_OK, S_OK, S_OK, S_OK, [⟨E_FAIL, 0, 0⟩]⟩

/-- A world whose `ExecQuery` is rejected by the remote service. -/
def worldQueryRejected : WmiWorld := ⟨S_OK, S_OK, S_OK, E_FAIL, []⟩

/-- A world where security initialization fails and every later step
succeeds. -/
def world4cex : WmiWorld := ⟨E_FAIL, S_OK, S_OK, S_OK, []⟩

/-- C3 as stated is false: when the chain succeeds but an enumerator `Next`
call fails mid-drain, the loop merely stops and the constructor still runs
`status_ = Status(0)` (wmi.cpp:383), so the construction reports success even
though a step failed — neither disjunct of the claim holds at this world. -/
theorem claim3_counterexample : ¬ claim3Statement world3cex := by
  unfold claim3Statement
  decide

/-- C3 amended: construction either completes the connection chain and
reports success with the drained results (the drain stopping at
end-of-results or at the first failing `Next` without affecting the status),
or a connection-chain step fails, the status is a failure and the result
collection is empty; in particular a rejected query yields a failure status,
an empty result sequence, and on destruction exactly the two resources
acquired before the failure (services then locator) are released. -/
theorem claim3_amended : ∀ w : WmiWorld,
    ((chainOk w = true ∧ (WmiRequest.construct w).status.ok = true
        ∧ (WmiRequest.construct w).results = drainEnum w.nextSteps)
      ∨ (chainOk w = false ∧ (WmiRequest.construct w).status.ok = false
        ∧ (WmiRequest.construct w).results = []))
    ∧ (w.hrExecQuery ≠ S_OK →
        (WmiRequest.construct w).status.ok = false
        ∧ (WmiRequest.construct w).results = [])
    ∧ (w.hrCreateLocator = S_OK → w.hrConnectServer = S_OK →
        w.hrExecQuery ≠ S_OK →
        (WmiRequest.construct w).releasedOnDestroy
          = [rsrcServices, rsrcLocator]) := by
  intro w
  unfold WmiRequest.construct chainOk
  by_cases h1 : w.hrCreateLocator = S_OK <;>
    by_cases h2 : w.hrConnectServer = S_OK <;>
    by_cases h3 : w.hrExecQuery = S_OK <;>
    simp [h1, h2, h3, WmiRequestState.releasedOnDestroy, initialStatus,
      Status.ok, Status.failure]

/-- Witness for the amended C3 at the rejected-query world. -/
theorem claim3_amended_witness :
    worldQueryRejected.hrExecQuery ≠ S_OK
    ∧ (WmiRequest.construct worldQueryRejected).status.ok = false
    ∧ (WmiRequest.construct worldQueryRejected).results = []
    ∧ (WmiRequest.construct worldQueryRejected).releasedOnDestroy
        = [rsrcServices, rsrcLocator] :=
  ⟨by decide,
    ((claim3_amended worldQueryRejected).2.1 (by decide)).1,
    ((claim3_amended worldQueryRejected).2.1 (by decide)).2,
    (claim3_amended worldQueryRejected).2.2 (by decide) (by decide)
      (by decide)⟩

/-- C4 as frozen, at one world: a failing security initialization prevents
the locator from being created. -/
def claim4Statement (w : WmiWorld) : Prop :=
  w.hrInitSecurity ≠ S_OK → (WmiRequest.construct w).locatorAcquired = false

/-- C4 as stated is false: the HRESULT of `CoInitializeSecurity` is stored
and immediately overwritten by the `CoCreateInstance` call without ever
being examined (wmi.cpp:332-346), so a failing security initialization does
not stop the locator from being created. -/
theorem claim4_counterexample : ¬ claim4Statement world4cex := by
  unfold claim4Statement
  decide

/-- C4 amended: the chain is linear from the locator step on — a failing
locator creation, service binding or query execution prevents every later
resource acquisition and leaves the result collection empty — but the
security-initialization outcome is ignored: construction behaves identically
whatever `CoInitializeSecurity` returned. -/
theorem claim4_amended : ∀ w : WmiWorld,
    (WmiRequest.construct w
      = WmiRequest.construct
          ⟨S_OK, w.hrCreateLocator, w.hrConnectServer, w.hrExecQuery,
            w.nextSteps⟩)
    ∧ (w.hrCreateLocator ≠ S_OK →
        (WmiRequest.construct w).locatorAcquired = false
        ∧ (WmiRequest.construct w).servicesAcquired = false
        ∧ (WmiRequest.construct w).enumAcquired = false
        ∧ (WmiRequest.construct w).results = [])
    ∧ (w.hrConnectServer ≠ S_OK →
        (WmiRequest.construct w).servicesAcquired = false
        ∧ (WmiRequest.construct w).enumAcquired = false
        ∧ (WmiRequest.construct w).results = [])
    ∧ (w.hrExecQuery ≠ S_OK →
        (WmiRequest.construct w).enumAcquired = false
        ∧ (WmiRequest.construct w).results = []) := by
  intro w
  refine ⟨rfl, ?_, ?_, ?_⟩ <;>
    intro h <;>
    unfold WmiRequest.construct <;>
    by_cases h1 : w.hrCreateLocator = S_OK <;>
    by_cases h2 : w.hrConnectServer = S_OK <;>
    simp_all

/-- Witness for the amended C4: a world whose service binding fails (with
security initialization also failing, exercising the ignored-outcome
conjunct) and a world whose locator creation fails. -/
theorem claim4_amended_witness :
    (WmiRequest.construct ⟨E_FAIL, S_OK, E_FAIL, S_OK, []⟩
      = WmiRequest.construct ⟨S_OK, S_OK, E_FAIL, S_OK, []⟩)
    ∧ (WmiRequest.construct ⟨E_FAIL, S_OK, E_FAIL, S_OK, []⟩).servicesAcquired
        = false
    ∧ (WmiRequest.construct ⟨E_FAIL, S_OK, E_FAIL, S_OK, []⟩).enumAcquired
        = false
    ∧ (WmiRequest.construct ⟨S_OK, E_FAIL, S_OK, S_OK, []⟩).locatorAcquired
        = false :=
  ⟨(claim4_amended ⟨E_FAIL, S_OK, E_FAIL, S_OK, []⟩).1,
    ((claim4_amended ⟨E_FAIL, S_OK, E_FAIL, S_OK, []⟩).2.2.1 (by decide)).1,
    ((claim4_amended ⟨E_FAIL, S_OK, E_FAIL, S_OK, []⟩).2.2.1
      (by decide)).2.1,
    ((claim4_amended ⟨S_OK, E_FAIL, S_OK, S_OK, []⟩).2.1 (by decide)).1⟩

/-- The decoded BSTR stored at SAFEARRAY index `idx` (the buffer's position
`idx - lbound`). -/
def arrayElemAt (sa : SafeArray) (idx : Int) : Option String :=
  sa.elems.getD (idx - sa.lbound).toNat none

/-- The `count = ubound - lbound + 1` computation of wmi.cpp:310-313 equals
the element count of the array, for every lower bound. -/
theorem count_toNat (lbound : Int) (len : Nat) :
    ((lbound + (len : Int) - 1) - lbound + 1).toNat = len := by
  omega

/-- A successful `GetVectorOfStrings` call on a freshly default-constructed
output vector, unfolded: the status and the pushed elements. -/
theorem getVectorOfStrings_eq (it : WmiResultItem) (name : String)
    (v : VARIANT) (ret : List String) (hget : it.getField name = ⟨S_OK, v⟩)
    (hvt : v.vt = VT_BSTR ||| VT_ARRAY) :
    it.GetVectorOfStrings name ret
      = (Status.success,
          ret ++ (List.range v.parray.elems.length).map
            (fun i => bstrToString (v.parray.elems.getD i none))) := by
  unfold WmiResultItem.GetVectorOfStrings
  rw [hget]
  simp only [hvt]
  rw [count_toNat v.parray.lbound v.parray.elems.length]
  simp [S_OK]

/-- C6: on a string-array field, `GetVectorOfStrings` succeeds, produces
exactly as many elements as the array holds, and the element at output
position `i` is the decoded string stored at array index `lbound + i`. -/
theorem claim6_vector_order :
    ∀ (it : WmiResultItem) (name : String) (v : VARIANT),
      it.getField name = ⟨S_OK, v⟩ → v.vt = VT_BSTR ||| VT_ARRAY →
      (it.GetVectorOfStrings name []).1.ok = true
      ∧ (it.GetVectorOfStrings name []).2.length = v.parray.elems.length
      ∧ ∀ i : Nat, i < v.parray.elems.length →
          (it.GetVectorOfStrings name []).2.get? i
            = some (bstrToString (arrayElemAt v.parray
                (v.parray.lbound + (i : Int)))) := by
  intro it name v hget hvt
  rw [getVectorOfStrings_eq it name v [] hget hvt]
  refine ⟨rfl, by simp, ?_⟩
  intro i hi
  have hidx : (v.parray.lbound + (i : Int) - v.parray.lbound).toNat = i := by
    omega
  simp [List.get?_eq_getElem?, List.getElem?_map, List.getElem?_range, hi, arrayElemAt, hidx]

/-- Sample strings for the witness array. -/
def strA : String := "alpha"

def strB : String := "beta"

/-- A result item holding a two-element string array with lower bound 5. -/
def itemArr : WmiResultItem :=
  ⟨[(fieldV,
      ⟨S_OK,
        { vt := VT_BSTR ||| VT_ARRAY,
          parray := ⟨5, [some strA, some strB]⟩ }⟩)]⟩

/-- Witness for C6 at a concrete two-element array with lower bound 5. -/
theorem claim6_vector_order_witness :
    itemArr.getField fieldV
      = ⟨S_OK,
          { vt := VT_BSTR ||| VT_ARRAY,
            parray := ⟨5, [some strA, some strB]⟩ }⟩
    ∧ (itemArr.GetVectorOfStrings fieldV []).2.length = 2
    ∧ (itemArr.GetVectorOfStrings fieldV []).2.get? 1
        = some (bstrToString (arrayElemAt ⟨5, [some strA, some strB]⟩ 6)) :=
  ⟨by decide,
    (claim6_vector_order itemArr fieldV
      { vt := VT_BSTR ||| VT_ARRAY, parray := ⟨5, [some strA, some strB]⟩ }
      (by decide) (by decide)).2.1,
    (claim6_vector_order itemArr fieldV
      { vt := VT_BSTR ||| VT_ARRAY, parray := ⟨5, [some strA, some strB]⟩ }
      (by decide) (by decide)).2.2 1 (by decide)⟩

/-- C10: a successful `GetVectorOfStrings` appends the decoded elements
after the caller's existing vector contents (`ret.push_back`, wmi.cpp:319,
with no clear of `ret`): the vector grows from `k` to `k + n` elements and
its original contents stay as an unchanged prefix. -/
theorem claim10_vector_appends :
    ∀ (it : WmiResultItem) (name : String) (v : VARIANT)
      (ret : List String),
      it.getField name = ⟨S_OK, v⟩ → v.vt = VT_BSTR ||| VT_ARRAY →
      (it.GetVectorOfStrings name ret).1.ok = true
      ∧ (it.GetVectorOfStrings name ret).2.length
          = ret.length + v.parray.elems.length
      ∧ (it.GetVectorOfStrings name ret).2.take ret.length = ret := by
  intro it name v ret hget hvt
  rw [getVectorOfStrings_eq it name v ret hget hvt]
  refine ⟨rfl, by simp, ?_⟩
  simpa using List.take_left ret _

/-- Witness for C10: draining the two-element array after an existing
one-element vector yields three elements with the original prefix intact. -/
theorem claim10_vector_appends_witness :
    (itemArr.GetVectorOfStrings fieldV [strX]).2.length = 3
    ∧ (itemArr.GetVectorOfStrings fieldV [strX]).2.take 1 = [strX] :=
  ⟨by
    have h :=
      (claim10_vector_appends itemArr fieldV
        { vt := VT_BSTR ||| VT_ARRAY,
          parray := ⟨5, [some strA, some strB]⟩ }
        [strX] (by decide) (by decide)).2.1
    simpa using h,
   by
    have h :=
      (claim10_vector_appends itemArr fieldV
        { vt := VT_BSTR ||| VT_ARRAY,
          parray := ⟨5, [some strA, some strB]⟩ }
        [strX] (by decide) (by decide)).2.2
    simpa using h⟩

/-- The variant one `Put` call builds. -/
def PutOp.variant : PutOp → VARIANT
  | .putUInt _ v => { vt := VT_UI4, bits := v % 2 ^ 32 }
  | .putStr _ v => { vt := VT_BSTR, bstrVal := some v }

/-- A `Put` on a fresh name appends one entry. -/
theorem applyOne_fresh (a : WmiMethodArgs) (op : PutOp)
    (h : hasKey a.arguments op.argName = false) :
    (a.applyOne op).2.arguments
      = a.arguments ++ [(op.argName, op.variant)] := by
  cases op <;>
    simp_all [WmiMethodArgs.applyOne, WmiMethodArgs.PutUInt,
      WmiMethodArgs.PutString, insertKeyed, PutOp.argName, PutOp.variant]

/-- `hasKey` distributes over the append a fresh `Put` performs. -/
theorem hasKey_append (l1 l2 : List (String × VARIANT)) (n : String) :
    hasKey (l1 ++ l2) n = (hasKey l1 n || hasKey l2 n) := by
  simp [hasKey]

/-- Applying distinct-named `Put` calls to a collection none of those names
occurs in appends the names in call order. -/
theorem applyPuts_keys : ∀ (ops : List PutOp) (a : WmiMethodArgs),
    (ops.map PutOp.argName).Nodup →
    (∀ n ∈ ops.map PutOp.argName, hasKey a.arguments n = false) →
    (a.applyPuts ops).arguments.map Prod.fst
      = a.arguments.map Prod.fst ++ ops.map PutOp.argName := by
  intro ops
  induction ops with
  | nil => intro a _ _; simp [WmiMethodArgs.applyPuts]
  | cons op rest ih =>
    intro a hnd hfresh
    have hop : hasKey a.arguments op.argName = false :=
      hfresh op.argName (by simp)
    have hstep := applyOne_fresh a op hop
    have hnd' : (rest.map PutOp.argName).Nodup := (List.nodup_cons.mp hnd).2
    have hne : op.argName ∉ rest.map PutOp.argName :=
      (List.nodup_cons.mp hnd).1
    have hfresh' : ∀ n ∈ rest.map PutOp.argName,
        hasKey (a.applyOne op).2.arguments n = false := by
      intro n hn
      rw [hstep, hasKey_append]
      have h1 : hasKey a.arguments n = false := hfresh n (by simp [hn])
      have h2 : hasKey [(op.argName, op.variant)] n = false := by
        simp [hasKey]
        intro hcontra
        exact absurd (hcontra ▸ hn) hne
      simp [h1, h2]
    calc (a.applyPuts (op :: rest)).arguments.map Prod.fst
        = ((a.applyOne op).2.applyPuts rest).arguments.map Prod.fst := rfl
      _ = (a.applyOne op).2.arguments.map Prod.fst
            ++ rest.map PutOp.argName := ih (a.applyOne op).2 hnd' hfresh'
      _ = a.arguments.map Prod.fst ++ (op :: rest).map PutOp.argName := by
          rw [hstep]; simp

/-- Argument names and string value of the round-trip example. -/
def nmN1 : String := "n1"

def nmN2 : String := "n2"

def strHello : String := "hello"

/-- The empty `WmiMethodArgs` collection. -/
def emptyArgs : WmiMethodArgs := ⟨[]⟩

/-- C7: building a collection with `Put("n1", 5u)` then `Put("n2", "hello")`
succeeds twice and `GetArguments` exposes exactly those two entries in that
order; in general any sequence of `Put` calls with distinct names exposes
the entries in insertion order. -/
theorem claim7_put_insertion_order :
    (emptyArgs.PutUInt nmN1 5).1 = Status.success
    ∧ ((emptyArgs.PutUInt nmN1 5).2.PutString false nmN2 strHello).1
        = Status.success
    ∧ ((emptyArgs.PutUInt nmN1 5).2.PutString false nmN2
        strHello).2.GetArguments.length = 2
    ∧ ((emptyArgs.PutUInt nmN1 5).2.PutString false nmN2
        strHello).2.GetArguments.map Prod.fst = [nmN1, nmN2]
    ∧ ∀ ops : List PutOp, (ops.map PutOp.argName).Nodup →
        (emptyArgs.applyPuts ops).GetArguments.map Prod.fst
          = ops.map PutOp.argName := by
  refine ⟨by decide, by decide, by decide, by decide, ?_⟩
  intro ops hnd
  have h := applyPuts_keys ops emptyArgs hnd
    (by intro n _; simp [emptyArgs, hasKey])
  simpa [WmiMethodArgs.GetArguments, emptyArgs] using h

/-- Witness for C7's universal part: two `Put` calls with distinct names in
decreasing alphabetical order still expose insertion order. -/
theorem claim7_put_insertion_order_witness :
    ([PutOp.putStr nmN2 strHello,
        PutOp.putUInt nmN1 5].map PutOp.argName).Nodup
    ∧ (emptyArgs.applyPuts
        [PutOp.putStr nmN2 strHello,
          PutOp.putUInt nmN1 5]).GetArguments.map Prod.fst
        = [nmN2, nmN1] :=
  ⟨by decide,
    by
      have h := claim7_put_insertion_order.2.2.2.2
        [PutOp.putStr nmN2 strHello, PutOp.putUInt nmN1 5] (by decide)
      simpa using h⟩

/-- C8: move-construction leaves the source empty and the destination with
exactly the source's original entries; destroying the emptied source frees
no string handle, destroying the destination frees exactly the handles the
original collection's destructor would have freed — one free per
allocated-string-tagged member. -/
theorem claim8_move_ownership : ∀ a : WmiMethodArgs,
    a.moveFrom.2.arguments = []
    ∧ a.moveFrom.1.arguments = a.arguments
    ∧ a.moveFrom.2.destructorFrees = []
    ∧ a.moveFrom.1.destructorFrees = a.destructorFrees
    ∧ a.moveFrom.2.destructorFrees ++ a.moveFrom.1.destructorFrees
        = a.arguments.filterMap
            (fun p => if p.2.vt == VT_BSTR then p.2.bstrVal else none) := by
  intro a
  refine ⟨rfl, rfl, rfl, rfl, ?_⟩
  simp [WmiMethodArgs.moveFrom, WmiMethodArgs.destructorFrees]

/-- A target object for `ExecMethod` exposing the `__CLASS` and `__PATH`
system string properties. -/
def strProcess : String := "Win32_Process"

def strObjPath : String := "root.cimv2.Win32_Process"

def methObject : WmiResultItem :=
  ⟨[(propCLASS, ⟨S_OK, { vt := VT_BSTR, bstrVal := some strProcess }⟩),
    (propPATH, ⟨S_OK, { vt := VT_BSTR, bstrVal := some strObjPath }⟩)]⟩

/-- An environment where every external `ExecMethod` step succeeds but
`GetMethod` yields a null input-parameter schema. -/
def envNoInDef : ExecEnv :=
  ⟨true, S_OK, S_OK, false, S_OK, fun _ => S_OK, true, true, S_OK, 42⟩

/-- C9: when the method's input-parameter schema resolution yields no schema
(`in_def == nullptr`, wmi.cpp:426), no argument instance is spawned and no
argument is copied, the remote invocation is performed with a null argument
instance, and a successful remote invocation yields success wrapping the
output item. -/
theorem claim9_no_inparams_skips_args :
    ∀ (env : ExecEnv) (object : WmiResultItem) (args : WmiMethodArgs),
      (WbemClassObjectPropToBSTR env.allocClassName object
        propCLASS).isSome = true →
      FAILED env.hrGetObject = false →
      FAILED env.hrGetMethod = false →
      env.inDef = false →
      env.allocMethName = true →
      (WbemClassObjectPropToBSTR env.allocObjPath object
        propPATH).isSome = true →
      FAILED env.hrExecMethod = false →
      (WmiRequest.ExecMethod env object args).spawnedInstance = false
      ∧ (WmiRequest.ExecMethod env object args).putAttempts = []
      ∧ (WmiRequest.ExecMethod env object args).argsInstNull = true
      ∧ (WmiRequest.ExecMethod env object args).execCalled = true
      ∧ (WmiRequest.ExecMethod env object args).outResult
          = some env.outParams
      ∧ (WmiRequest.ExecMethod env object args).status = Status.success := by
  intro env object args hclass hobj hmeth hdef halloc hpath hexec
  obtain ⟨c, hc⟩ := Option.isSome_iff_exists.mp hclass
  obtain ⟨p, hp⟩ := Option.isSome_iff_exists.mp hpath
  unfold WmiRequest.ExecMethod finishExec
  rw [hc, hp]
  simp [hobj, hmeth, hdef, halloc, hexec]

/-- Witness for C9 at a concrete environment and target object. -/
theorem claim9_no_inparams_skips_args_witness :
    (WbemClassObjectPropToBSTR envNoInDef.allocClassName methObject
      propCLASS).isSome = true
    ∧ envNoInDef.inDef = false
    ∧ (WmiRequest.ExecMethod envNoInDef methObject emptyArgs).spawnedInstance
        = false
    ∧ (WmiRequest.ExecMethod envNoInDef methObject emptyArgs).argsInstNull
        = true
    ∧ (WmiRequest.ExecMethod envNoInDef methObject emptyArgs).status
        = Status.success
    ∧ (WmiRequest.ExecMethod envNoInDef methObject emptyArgs).outResult
        = some 42 :=
  ⟨by decide, rfl,
    (claim9_no_inparams_skips_args envNoInDef methObject emptyArgs
      (by decide) rfl rfl rfl rfl (by decide) rfl).1,
    (claim9_no_inparams_skips_args envNoInDef methObject emptyArgs
      (by decide) rfl rfl rfl rfl (by decide) rfl).2.2.1,
    (claim9_no_inparams_skips_args envNoInDef methObject emptyArgs
      (by decide) rfl rfl rfl rfl (by decide) rfl).2.2.2.2.2,
    (claim9_no_inparams_skips_args envNoInDef methObject emptyArgs
      (by decide) rfl rfl rfl rfl (by decide) rfl).2.2.2.2.1⟩

end osquery
